import Mathlib

/-
Verification development for the Public Pulse AI core intelligence pipeline.

Shallow embedding of the four core components:
  * services/ai-engine/src/classifier.py        (rule-based classification path)
  * services/ai-engine/src/sentiment_analyzer.py
  * services/ai-engine/src/fusion_engine.py
  * services/ai-engine/src/ai_summarizer.py     (health score, anomaly detection)

Texts are modelled as `List Char` (Python str); float arithmetic is modelled
exactly over `ℚ`; Python `round(x, n)` is modelled as round-half-up at n
decimals (all values compared in the theorems below are at least 0.005 away
from a tie, so half-up and Python's float rounding agree on them);
`datetime.now()` is passed in explicitly (as an hour-of-day, or as an epoch
timestamp) since the source reads the clock.
-/

set_option maxHeartbeats 2000000
set_option maxRecDepth 10000

/-! ## Basic text utilities -/

/-- Python `needle in haystack` prefix step: `needle` is a prefix of `haystack`. -/
def isPrefixList : List Char → List Char → Bool
  | [], _ => true
  | _ :: _, [] => false
  | c :: cs, d :: ds => c == d && isPrefixList cs ds

/-- Python `needle in haystack` (substring containment). -/
def containsSub (needle : List Char) : List Char → Bool
  | [] => isPrefixList needle []
  | c :: rest => isPrefixList needle (c :: rest) || containsSub needle rest

/-- Python `str.lower()` (ASCII case folding, as used by all claim inputs). -/
def toLowerList (t : List Char) : List Char := t.map Char.toLower

/-- Python `str.strip()`: remove leading and trailing whitespace. -/
def stripList (t : List Char) : List Char :=
  ((t.dropWhile Char.isWhitespace).reverse.dropWhile Char.isWhitespace).reverse

/-- Count maximal runs of characters satisfying `p`; the Bool argument records
whether we are currently inside a run. -/
def countRunsAux (p : Char → Bool) : List Char → Bool → ℕ
  | [], _ => 0
  | c :: t, inRun =>
      if p c then (if inRun then 0 else 1) + countRunsAux p t true
      else countRunsAux p t false

/-- Count maximal runs of characters satisfying `p`. -/
def countRuns (p : Char → Bool) (t : List Char) : ℕ := countRunsAux p t false

/-- Python `len(text.split())`: number of maximal non-whitespace runs. -/
def wordCount (t : List Char) : ℕ := countRuns (fun c => !c.isWhitespace) t

/-- Python `len(re.findall(r'\d+', text))`: number of maximal digit runs. -/
def digitGroups (t : List Char) : ℕ := countRuns Char.isDigit t

/-- Python `round(x, 2)` modelled as round-half-up at 2 decimals. -/
def round2 (q : ℚ) : ℚ := (⌊q * 100 + 1/2⌋ : ℚ) / 100

/-- Python `round(x, 3)` modelled as round-half-up at 3 decimals. -/
def round3 (q : ℚ) : ℚ := (⌊q * 1000 + 1/2⌋ : ℚ) / 1000

/-- Number of keywords from `kws` that occur as substrings of `t`
(each keyword contributes at most 1, duplicated keywords count twice,
exactly as Python's per-keyword `if kw in text` sum). -/
def countHits (kws : List String) (t : List Char) : ℕ :=
  kws.countP (fun k => containsSub k.data t)

/-- Python `max(d, key=d.get)` over an association list in insertion order:
first entry with the maximal value wins (later entries replace only when
strictly greater). -/
def pickBest : String × ℕ → List (String × ℕ) → String × ℕ
  | acc, [] => acc
  | acc, q :: rest => pickBest (if q.2 > acc.2 then q else acc) rest

/-- Distinct elements of a list in order of first occurrence
(the iteration order of a Python `Counter`/dict built by insertion). -/
def dedupKeepFirst : List String → List String
  | [] => []
  | x :: xs => x :: dedupKeepFirst (xs.filter (fun y => y != x))
termination_by l => l.length
decreasing_by
  simp only [List.length_cons]
  exact Nat.lt_succ_of_le (List.length_filter_le _ _)

/-! ## Tiny regex engine

The three `LOCATION_PATTERNS` of sentiment_analyzer.py only use literal
words, alternations of literal words, character classes under `+`, `*`, `?`,
and the word boundary `\b`.  A pattern is a sequence of such atoms; matching
is nondeterministic (a sequence matches iff SOME way of splitting the input
matches), which coincides with the truth value of Python's backtracking
`re.search`. -/

inductive RegAtom where
  | lit : List Char → RegAtom
  | alt : List (List Char) → RegAtom
  | plus : (Char → Bool) → RegAtom
  | star : (Char → Bool) → RegAtom
  | opt : (Char → Bool) → RegAtom
  | wb : RegAtom

/-- Weight of an atom, used only for the termination measure. -/
def atomWeight : RegAtom → ℕ
  | .lit _ => 1
  | .alt ws => 2 + ws.length
  | .plus _ => 2
  | .star _ => 1
  | .opt _ => 1
  | .wb => 1

/-- Total weight of a pattern. -/
def patWeight : List RegAtom → ℕ
  | [] => 0
  | a :: ps => atomWeight a + patWeight ps

/-- Python `\w`: word character (ASCII letters, digits, underscore). -/
def isWordChar (c : Char) : Bool := c.isAlphanum || c == '_'

/-- Word-character test of the previous character (string edge counts as non-word). -/
def isWordOpt : Option Char → Bool
  | none => false
  | some c => isWordChar c

/-- Word-character test of the next character (string edge counts as non-word). -/
def isWordHead : List Char → Bool
  | [] => false
  | c :: _ => isWordChar c

/-- Does the atom sequence match some prefix of `s`?  `prev` is the character
immediately before the current position (for `\b`). -/
def matchSeq : Option Char → List RegAtom → List Char → Bool
  | _, [], _ => true
  | prev, .lit [] :: ps, s => matchSeq prev ps s
  | _, .lit (_ :: _) :: _, [] => false
  | _, .lit (c :: w) :: ps, d :: s2 => c == d && matchSeq (some c) (.lit w :: ps) s2
  | _, .alt [] :: _, _ => false
  | prev, .alt (w :: ws) :: ps, s =>
      matchSeq prev (.lit w :: ps) s || matchSeq prev (.alt ws :: ps) s
  | _, .plus _ :: _, [] => false
  | _, .plus p :: ps, d :: s2 => p d && matchSeq (some d) (.star p :: ps) s2
  | prev, .star _ :: ps, [] => matchSeq prev ps []
  | prev, .star p :: ps, d :: s2 =>
      matchSeq prev ps (d :: s2) || (p d && matchSeq (some d) (.star p :: ps) s2)
  | prev, .opt _ :: ps, [] => matchSeq prev ps []
  | prev, .opt p :: ps, d :: s2 =>
      matchSeq prev ps (d :: s2) || (p d && matchSeq (some d) ps s2)
  | prev, .wb :: ps, s => (isWordOpt prev != isWordHead s) && matchSeq prev ps s
termination_by _ ps s => s.length + patWeight ps
decreasing_by
  all_goals simp only [patWeight, atomWeight, List.length_cons, List.length_nil]
  all_goals omega

/-- Python `re.search`: try the pattern at every start position. -/
def searchFrom (pat : List RegAtom) : List Char → Option Char → Bool
  | [], prev => matchSeq prev pat []
  | c :: s2, prev => matchSeq prev pat (c :: s2) || searchFrom pat s2 (some c)

/-- Truth value of `re.search(pat, s)`. -/
def reSearch (pat : List RegAtom) (s : List Char) : Bool := searchFrom pat s none

/-! ## sentiment_analyzer.py -/

/-- `URGENCY_KEYWORDS["critical"]`, en ++ hi ++ gu concatenated
(the source sums hits over all language lists, so words occurring in two
lists — emergency, jaldi, aag — deliberately appear twice). -/
def CRITICAL_KEYWORDS : List String :=
  ["emergency", "urgent", "immediately", "danger", "life-threatening", "critical", "fatal",
   "collapse", "drowning", "fire", "explosion", "accident", "bleeding", "dying",
   "emergency", "turant", "jaldi", "khatarnak", "jaan", "aag", "hadsa", "madat",
   "tatkalik", "jaldi", "jokhami", "aag", "akasmat", "madad"]

/-- `URGENCY_KEYWORDS["high"]`, en ++ hi ++ gu concatenated. -/
def HIGH_KEYWORDS : List String :=
  ["flooding", "blocked", "stuck", "stranded", "overflow", "sewage", "hazard",
   "unsafe", "broken", "fallen", "collapsed", "power cut", "blackout", "major",
   "baarish", "paani", "band", "tuta", "kharab", "bijli", "bada", "bahut",
   "varsad", "paani", "band", "tutelu", "kharab", "vij", "motu"]

/-- `URGENCY_KEYWORDS["moderate"]`, en ++ hi ++ gu concatenated. -/
def MODERATE_KEYWORDS : List String :=
  ["pothole", "garbage", "smell", "dirty", "noisy", "crack", "leak", "slow",
   "damaged", "poor", "bad", "complaint", "issue", "problem", "concern",
   "gaddha", "kachra", "ganda", "shor", "tuta", "samasya", "shikayat",
   "khado", "kachro", "gandu", "awaaj", "tutelu", "samasya", "farid"]

/-- `EMOTION_KEYWORDS` in source insertion order. -/
def EMOTION_KEYWORDS : List (String × List String) :=
  [("frustration", ["again", "still", "always", "never", "fed up", "tired", "nothing done",
                    "no action", "ignored", "useless", "waste", "why", "how long", "phir se",
                    "kab tak", "koi nahi sunta", "faaltu"]),
   ("fear", ["scared", "afraid", "dangerous", "risky", "unsafe", "children", "dark",
             "accident", "injury", "darr", "khatarnak", "bacche", "andhera"]),
   ("anger", ["terrible", "worst", "pathetic", "disgusting", "shame", "corruption",
              "incompetent", "bakwas", "bekar", "sharam", "ghatiya"]),
   ("concern", ["worried", "please", "help", "request", "hope", "need", "want",
                "chinta", "madad", "umeed", "zarurat"]),
   ("positive", ["thank", "good", "great", "fixed", "resolved", "better", "improved",
                 "shukriya", "accha", "sahi", "theek"])]

/-- `SEVERITY_AMPLIFIERS`. -/
def SEVERITY_AMPLIFIERS : List String :=
  ["very", "extremely", "highly", "massive", "huge", "terrible", "worst",
   "bahut", "bohot", "ekdum", "bilkul", "poora"]

/-- Romanized-Hindi function words checked by `_detect_language`. -/
def HINDI_MARKERS : List String :=
  ["hai", "ho", "ka", "ki", "ke", "mein", "ko", "se", "par", "nahi", "kya", "yeh", "woh"]

/-- Gazetteer of Vadodara area names checked by `_has_location`. -/
def VADODARA_AREAS : List String :=
  ["alkapuri", "gotri", "akota", "fatehgunj", "manjalpur", "sayajigunj",
   "karelibaug", "waghodia", "vasna", "makarpura", "gorwa", "tandalja",
   "subhanpura", "nizampura", "sama", "chhani", "dabhoi"]

/-- `LOCATION_PATTERNS[0]`:
`\b(?:near|opposite|behind|beside|at|on)\s+[\w\s]+(?:road|chowk|nagar|colony|society|park|school|hospital|temple|masjid|bridge)\b`. -/
def LOCATION_PATTERN_1 : List RegAtom :=
  [.wb,
   .alt (List.map String.data ["near", "opposite", "behind", "beside", "at", "on"]),
   .plus Char.isWhitespace,
   .plus (fun c => isWordChar c || c.isWhitespace),
   .alt (List.map String.data
     ["road", "chowk", "nagar", "colony", "society", "park", "school",
      "hospital", "temple", "masjid", "bridge"]),
   .wb]

/-- `LOCATION_PATTERNS[1]`: `\b[\w]+\s+(?:road|marg|gali|chowk|circle|cross|naka)\b`. -/
def LOCATION_PATTERN_2 : List RegAtom :=
  [.wb,
   .plus isWordChar,
   .plus Char.isWhitespace,
   .alt (List.map String.data ["road", "marg", "gali", "chowk", "circle", "cross", "naka"]),
   .wb]

/-- `LOCATION_PATTERNS[2]`: `\b(?:ward|zone|sector|block|phase)\s*[#-]?\s*\d+\b`. -/
def LOCATION_PATTERN_3 : List RegAtom :=
  [.wb,
   .alt (List.map String.data ["ward", "zone", "sector", "block", "phase"]),
   .star Char.isWhitespace,
   .opt (fun c => c == '#' || c == '-'),
   .star Char.isWhitespace,
   .plus Char.isDigit,
   .wb]

/-- `_detect_language(text)` of sentiment_analyzer.py. -/
def detect_language (t : List Char) : String :=
  if t.any (fun c => decide (0x900 ≤ c.toNat) && decide (c.toNat ≤ 0x97F)) then "hi"
  else if t.any (fun c => decide (0xA80 ≤ c.toNat) && decide (c.toNat ≤ 0xAFF)) then "gu"
  else if 2 ≤ HINDI_MARKERS.countP
      (fun m => containsSub (' ' :: (m.data ++ [' '])) (' ' :: (t ++ [' ']))) then
    "hi_transliterated"
  else "en"

/-- `_calculate_urgency(text)` of sentiment_analyzer.py. -/
def calculate_urgency (t : List Char) : String × ℚ :=
  let c := countHits CRITICAL_KEYWORDS t
  let h := countHits HIGH_KEYWORDS t
  let m := countHits MODERATE_KEYWORDS t
  if 2 ≤ c then ("critical", min 1 (0.85 + (c : ℚ) * 0.05))
  else if 1 ≤ c then ("critical", 0.8)
  else if 2 ≤ h then ("high", min 0.79 (0.6 + (h : ℚ) * 0.05))
  else if 1 ≤ h then ("high", 0.6)
  else if 2 ≤ m then ("moderate", min 0.59 (0.4 + (m : ℚ) * 0.03))
  else if 1 ≤ m then ("moderate", 0.35)
  else ("low", 0.15)

/-- `_detect_emotion(text)` of sentiment_analyzer.py. -/
def detect_emotion (t : List Char) : String × ℚ :=
  let scores := (EMOTION_KEYWORDS.map (fun p => (p.1, countHits p.2 t))).filter
    (fun p => decide (0 < p.2))
  match scores with
  | [] => ("neutral", 0.5)
  | p :: rest =>
      let dom := pickBest p rest
      let total := (scores.map Prod.snd).sum
      (dom.1, min 0.95 (0.5 + ((dom.2 : ℚ) / ((max total 1 : ℕ) : ℚ)) * 0.4))

/-- `_calculate_severity(text, urgency_score)` of sentiment_analyzer.py.
Note the caller passes the LOWERCASED text as `t`. -/
def calculate_severity (t : List Char) (urgency_score : ℚ) : ℚ :=
  let base := urgency_score * 0.6
  let length_factor := min 0.15 ((wordCount t : ℚ) / 100)
  let caps_frac := ((t.countP Char.isUpper : ℚ)) / ((max t.length 1 : ℕ) : ℚ)
  let excl := t.countP (fun c => c == '!')
  let intensity := min 0.15 (caps_frac * 0.5 + (excl : ℚ) * 0.03)
  let number_factor := min 0.1 ((digitGroups t : ℚ) * 0.02)
  min 1 (base + length_factor + intensity + number_factor)

/-- `_has_location(text)` of sentiment_analyzer.py.  The regexes are compiled
with `re.IGNORECASE`, which is modelled by matching over the lowercased text
(the patterns themselves are lowercase); the gazetteer check lowercases
explicitly in the source. -/
def has_location (text : String) : Bool :=
  let t := toLowerList text.data
  reSearch LOCATION_PATTERN_1 t || reSearch LOCATION_PATTERN_2 t ||
    reSearch LOCATION_PATTERN_3 t ||
    VADODARA_AREAS.any (fun a => containsSub a.data t)

/-- Result record of `analyze_sentiment`.  The `key_phrases` output
(`_extract_key_phrases`, returned through Python's unordered `list(set(...))`)
is not modelled: no claim refers to it. -/
structure SentimentProfile where
  urgency : String
  urgency_score : ℚ
  emotion : String
  emotion_confidence : ℚ
  severity_score : ℚ
  language_detected : String
  has_location : Bool
  amplified : Bool
deriving DecidableEq

/-- `analyze_sentiment(text)` of sentiment_analyzer.py. -/
def analyze_sentiment (text : String) : SentimentProfile :=
  if stripList text.data = [] then
    { urgency := "low", urgency_score := 0.1, emotion := "neutral",
      emotion_confidence := 0.5, severity_score := 0.2, language_detected := "en",
      has_location := false, amplified := false }
  else
    let t := stripList (toLowerList text.data)
    let lang := detect_language t
    let u := calculate_urgency t
    let e := detect_emotion t
    let sev0 := calculate_severity t u.2
    let amp := SEVERITY_AMPLIFIERS.any (fun a => containsSub a.data t)
    let sev1 := if amp then min 1 (sev0 * 1.3) else sev0
    let us1 := if amp then min 1 (u.2 * 1.2) else u.2
    { urgency := u.1, urgency_score := round2 us1, emotion := e.1,
      emotion_confidence := round2 e.2, severity_score := round2 sev1,
      language_detected := lang, has_location := has_location text, amplified := amp }

/-! ## classifier.py (rule-based path)

No trained model file ships with the repository and the ML branch delegates
to an external sklearn model, so only the always-available rule-based
fallback is embedded (claims C2/C3 are explicitly about this path). -/

/-- `KEYWORDS` of classifier.py in insertion order. -/
def KEYWORDS : List (String × List String) :=
  [("traffic", ["traffic", "jam", "congestion", "stuck", "road blocked", "vehicle"]),
   ("garbage", ["garbage", "trash", "waste", "rubbish", "bin", "overflow", "smell", "dirty"]),
   ("water", ["water", "logging", "flood", "drainage", "leak", "pipe", "rain"]),
   ("light", ["light", "street", "dark", "lamp", "pole", "electricity"])]

/-- Keyword-hit count per category (the `scores` dict of `classify_issue`;
each keyword adds 1 when it occurs as a substring of the lowercased text). -/
def rule_hit_counts (text : String) : List (String × ℕ) :=
  KEYWORDS.map (fun p => (p.1, p.2.countP (fun w => containsSub w.data (toLowerList text.data))))

/-- `classify_issue(text)` of classifier.py, rule-based path.
`max(scores, key=scores.get)` returns the first key attaining the maximum in
dict insertion order, which is `pickBest`. -/
def classify_issue (text : String) : String × ℚ :=
  match rule_hit_counts text with
  | [] => ("other", 0)
  | p :: rest =>
      let best := pickBest p rest
      if best.2 = 0 then ("other", 0)
      else (best.1, min (0.5 + (best.2 : ℚ) * 0.1) 0.95)

/-- The winning category's hit count (the `max_score` of `classify_issue`). -/
def maxHits (text : String) : ℕ :=
  ((rule_hit_counts text).map Prod.snd).foldl max 0

/-! ## fusion_engine.py -/

/-- The sparse signal dict passed to `calculate_risk`: `none` models an
absent key, `some v` a key present with value `v` (Python distinguishes
`inputs.get(k, 0.0)` from `k not in inputs`). -/
structure SignalInputs where
  time_series_score : Option ℚ
  nlp_score : Option ℚ
  anomaly_score : Option ℚ
  history_score : Option ℚ
  video_score : Option ℚ
  weather_score : Option ℚ
  temporal_score : Option ℚ
deriving DecidableEq

/-- `inputs.get(key, 0.0)`. -/
def get0 (o : Option ℚ) : ℚ := o.getD 0

/-- `_get_temporal_factor()` of fusion_engine.py, with `datetime.now().hour`
passed in explicitly. -/
def get_temporal_factor (hour : ℕ) : ℚ :=
  if (8 ≤ hour ∧ hour ≤ 10) ∨ (17 ≤ hour ∧ hour ≤ 20) then 0.8
  else if 22 ≤ hour ∨ hour ≤ 5 then 0.3
  else 0.5

/-- Weather imputation of `calculate_risk`: an absent `weather_score` key is
replaced by the mean of time-series and anomaly scores; an explicitly
supplied value (even 0.0) is kept. -/
def imputed_weather (i : SignalInputs) : ℚ :=
  match i.weather_score with
  | some w => w
  | none => (get0 i.time_series_score + get0 i.anomaly_score) / 2

/-- Temporal imputation of `calculate_risk`. -/
def imputed_temporal (i : SignalInputs) (hour : ℕ) : ℚ :=
  match i.temporal_score with
  | some t => t
  | none => get_temporal_factor hour

/-- `sum(1 for s in scores if s > 0.6)` over the four corroborating signals. -/
def highCount (a b c d : ℚ) : ℕ :=
  (if a > 0.6 then 1 else 0) + (if b > 0.6 then 1 else 0) +
  (if c > 0.6 then 1 else 0) + (if d > 0.6 then 1 else 0)

/-- Boost amount from the number of high signals. -/
def boostOf (n : ℕ) : ℚ :=
  if 3 ≤ n then 0.08 else if 2 ≤ n then 0.04 else 0

/-- `_calculate_correlation_boost(inputs)` of fusion_engine.py (reads the raw
inputs with default 0, not the imputed values). -/
def calculate_correlation_boost (i : SignalInputs) : ℚ :=
  boostOf (highCount (get0 i.time_series_score) (get0 i.nlp_score)
    (get0 i.anomaly_score) (get0 i.video_score))

/-- The weighted sum of `calculate_risk` with the fixed weight vector. -/
def weighted_sum (i : SignalInputs) (hour : ℕ) : ℚ :=
  0.25 * get0 i.time_series_score + 0.20 * get0 i.nlp_score +
  0.15 * get0 i.anomaly_score + 0.10 * get0 i.history_score +
  0.15 * get0 i.video_score + 0.10 * imputed_weather i +
  0.05 * imputed_temporal i hour

/-- `_get_level(score)` of fusion_engine.py (strict thresholds). -/
def get_level (score : ℚ) : String :=
  if score > 0.8 then "CRITICAL"
  else if score > 0.6 then "HIGH"
  else if score > 0.4 then "MEDIUM"
  else "LOW"

/-- Return record of `calculate_risk`. -/
structure RiskAssessment where
  final_risk : ℚ
  level : String
  breakdown : List (String × ℚ)
  correlation_boost : ℚ
  formula : String
deriving DecidableEq

/-- `calculate_risk(inputs)` of fusion_engine.py.  Note: `level` is computed
from the UNROUNDED clamped risk, `final_risk` is reported rounded to 2
decimals. -/
def calculate_risk (i : SignalInputs) (hour : ℕ) : RiskAssessment :=
  let fr := min 1 (weighted_sum i hour + calculate_correlation_boost i)
  { final_risk := round2 fr
    level := get_level fr
    breakdown :=
      [("time_series", round2 (get0 i.time_series_score)),
       ("nlp", round2 (get0 i.nlp_score)),
       ("anomaly", round2 (get0 i.anomaly_score)),
       ("history", round2 (get0 i.history_score)),
       ("video", round2 (get0 i.video_score)),
       ("weather", round2 (imputed_weather i)),
       ("temporal", round2 (imputed_temporal i hour))]
    correlation_boost := round3 (calculate_correlation_boost i)
    formula := "0.25*TS + 0.20*NLP + 0.15*Anomaly + 0.10*History + 0.15*Video + 0.10*Weather + 0.05*Temporal + Correlation" }

/-- `simulate_gotri_scenario()` of fusion_engine.py: the fixed demo signal set. -/
def simulate_gotri_scenario (hour : ℕ) : RiskAssessment :=
  calculate_risk
    { time_series_score := some 0.95, nlp_score := some 0.95,
      anomaly_score := some 0.90, history_score := some 0.80,
      video_score := some 0.85, weather_score := none, temporal_score := none }
    hour

/-- The names of the seven fusion signals (for stating per-signal monotonicity). -/
inductive SignalName where
  | time_series | nlp | anomaly | history | video | weather | temporal
deriving DecidableEq

/-- Overwrite one named signal with an explicitly supplied value. -/
def setSignal (i : SignalInputs) (n : SignalName) (v : ℚ) : SignalInputs :=
  match n with
  | .time_series => { i with time_series_score := some v }
  | .nlp => { i with nlp_score := some v }
  | .anomaly => { i with anomaly_score := some v }
  | .history => { i with history_score := some v }
  | .video => { i with video_score := some v }
  | .weather => { i with weather_score := some v }
  | .temporal => { i with temporal_score := some v }

/-- A supplied signal lies in [0,1] (absent signals impose nothing). -/
def okSig : Option ℚ → Prop
  | none => True
  | some x => 0 ≤ x ∧ x ≤ 1

instance (o : Option ℚ) : Decidable (okSig o) :=
  match o with
  | none => .isTrue trivial
  | some x => inferInstanceAs (Decidable (0 ≤ x ∧ x ≤ 1))

/-- All supplied signals lie in [0,1]. -/
def inRange (i : SignalInputs) : Prop :=
  okSig i.time_series_score ∧ okSig i.nlp_score ∧ okSig i.anomaly_score ∧
  okSig i.history_score ∧ okSig i.video_score ∧ okSig i.weather_score ∧
  okSig i.temporal_score

instance (i : SignalInputs) : Decidable (inRange i) :=
  inferInstanceAs (Decidable (_ ∧ _ ∧ _ ∧ _ ∧ _ ∧ _ ∧ _))

/-- A supplied signal is nonnegative. -/
def nnSig : Option ℚ → Prop
  | none => True
  | some x => 0 ≤ x

instance (o : Option ℚ) : Decidable (nnSig o) :=
  match o with
  | none => .isTrue trivial
  | some x => inferInstanceAs (Decidable (0 ≤ x))

/-- All supplied signals are nonnegative. -/
def nonnegInputs (i : SignalInputs) : Prop :=
  nnSig i.time_series_score ∧ nnSig i.nlp_score ∧ nnSig i.anomaly_score ∧
  nnSig i.history_score ∧ nnSig i.video_score ∧ nnSig i.weather_score ∧
  nnSig i.temporal_score

instance (i : SignalInputs) : Decidable (nonnegInputs i) :=
  inferInstanceAs (Decidable (_ ∧ _ ∧ _ ∧ _ ∧ _ ∧ _ ∧ _))

/-! ## ai_summarizer.py (health score and anomaly detection) -/

/-- The trend dict produced by `_calculate_trend` as read by
`_calculate_health_score` (direction string and integer percent change). -/
structure Trend where
  direction : String
  change_percent : ℤ
deriving DecidableEq

/-- `_calculate_health_score(active, critical, trend, predictions)` of
ai_summarizer.py.  Python `//` on the nonnegative `abs(...)` agrees with
integer division in ℤ. -/
def calculate_health_score (active critical : ℕ) (trend : Trend) (predictions : ℕ) : ℤ :=
  let s1 : ℤ := 100 - min 30 (2 * (active : ℤ))
  let s2 : ℤ := s1 - min 25 (8 * (critical : ℤ))
  let s3 : ℤ :=
    if trend.direction = "increasing" then s2 - min 15 (|trend.change_percent| / 5)
    else if trend.direction = "decreasing" then s2 + min 10 (|trend.change_percent| / 10)
    else s2
  let s4 : ℤ := s3 - min 10 (2 * (predictions : ℤ))
  max 0 (min 100 s4)

/-- The trend contribution of `_calculate_health_score`, isolated as a single
additive term (negative deduction for an increasing trend, bonus for a
decreasing one). -/
def trendAdj (t : Trend) : ℤ :=
  if t.direction = "increasing" then -(min 15 (|t.change_percent| / 5))
  else if t.direction = "decreasing" then min 10 (|t.change_percent| / 10)
  else 0

/-- An incident record as read by `_detect_anomalies`: creation timestamp
(epoch seconds; only the numeric branch of `_parse_time` is exercised),
`event_type` and `area_name`. -/
structure Incident where
  createdAt : ℚ
  eventType : String
  areaName : String
deriving DecidableEq

/-- `_parse_time(ts)` of ai_summarizer.py for numeric timestamps:
values above 1e12 are treated as milliseconds. -/
def parse_time (ts : ℚ) : ℚ := if ts > 1e12 then ts / 1000 else ts

/-- The `recent` filter of `_detect_anomalies`: incidents created within the
window (`now` is `datetime.now()` as epoch seconds, the cutoff is
`now - hours*3600`). -/
def recentOf (incidents : List Incident) (hours : ℕ) (now : ℚ) : List Incident :=
  incidents.filter (fun i => decide (now - 3600 * (hours : ℚ) < parse_time i.createdAt))

/-- An anomaly record (kind, severity, affected type/area; the formatted
`description`/`recommendation` strings are not modelled — no claim reads them). -/
structure Anomaly where
  kind : String
  severity : String
  affected : String
deriving DecidableEq

/-- `_detect_anomalies(incidents, hours)` of ai_summarizer.py: type spikes
(share > 60%, count ≥ 3), geographic clusters (count ≥ 4, share > 40%), and
rate spikes (count ≥ 10 and rate > 2/hr), concatenated in source order.
Counter iteration follows first-occurrence order. -/
def detect_anomalies (incidents : List Incident) (hours : ℕ) (now : ℚ) : List Anomaly :=
  let recent := recentOf incidents hours now
  let total := recent.length
  ((dedupKeepFirst (recent.map (·.eventType))).filterMap (fun τ =>
      let count := recent.countP (fun i => i.eventType == τ)
      if 0 < total ∧ (0.6 : ℚ) < (count : ℚ) / (total : ℚ) ∧ 3 ≤ count then
        some ⟨"type_spike", "warning", τ⟩
      else none))
  ++ ((dedupKeepFirst (recent.map (·.areaName))).filterMap (fun α =>
      let count := recent.countP (fun i => i.areaName == α)
      if 4 ≤ count ∧ 0 < total ∧ (0.4 : ℚ) < (count : ℚ) / (total : ℚ) then
        some ⟨"area_cluster", "warning", α⟩
      else none))
  ++ (if 10 ≤ total ∧ (2 : ℚ) < (total : ℚ) / ((max hours 1 : ℕ) : ℚ) then
        [⟨"rate_spike",
          if (5 : ℚ) < (total : ℚ) / ((max hours 1 : ℕ) : ℚ) then "critical" else "warning",
          ""⟩]
      else [])

/-! ## Spec-side definitions used for comparison -/

/-- The urgency-label/score bucket consistency asserted by the spec
(§4.2 tier boundaries): critical ≥ 0.8, high in [0.6, 0.8),
moderate in [0.35, 0.6), low < 0.35. -/
def inBucket (lbl : String) (s : ℚ) : Prop :=
  if lbl = "critical" then 0.8 ≤ s
  else if lbl = "high" then 0.6 ≤ s ∧ s < 0.8
  else if lbl = "moderate" then 0.35 ≤ s ∧ s < 0.6
  else s < 0.35

instance (lbl : String) (s : ℚ) : Decidable (inBucket lbl s) := by
  unfold inBucket
  infer_instance

/-- Modelled from the spec: the severity formula of claim C7, whose intensity
term uses the ratio of uppercase characters in the SUBMITTED text (the code
instead computes it on the lowercased text).  Everything else follows the
source formula. -/
def severity_spec (text : String) : ℚ :=
  let t := stripList (toLowerList text.data)
  let u := (calculate_urgency t).2
  let base := u * 0.6
  let length_factor := min 0.15 ((wordCount t : ℚ) / 100)
  let caps_frac := ((text.data.countP Char.isUpper : ℚ)) / ((max text.data.length 1 : ℕ) : ℚ)
  let excl := t.countP (fun c => c == '!')
  let intensity := min 0.15 (caps_frac * 0.5 + (excl : ℚ) * 0.03)
  let number_factor := min 0.1 ((digitGroups t : ℚ) * 0.02)
  min 1 (base + length_factor + intensity + number_factor)

/-- Concrete incident constructor for the witness inputs. -/
def mkInc (ts : ℚ) (ty ar : String) : Incident := ⟨ts, ty, ar⟩

/-- Witness incident set for C9 part (a): 10 recent incidents, 7 of type "water". -/
def incsTypeSpike : List Incident :=
  [mkInc 4999000 "water" "A1", mkInc 4999000 "water" "A2", mkInc 4999000 "water" "A3",
   mkInc 4999000 "water" "A4", mkInc 4999000 "water" "A5", mkInc 4999000 "water" "A6",
   mkInc 4999000 "water" "A7", mkInc 4999000 "traffic" "A8", mkInc 4999000 "garbage" "A9",
   mkInc 4999000 "light" "A10"]

/-- Witness incident set for C9 part (b): 5 recent incidents, no type or area
with more than 3 occurrences, low rate. -/
def incsQuiet : List Incident :=
  [mkInc 4999000 "water" "A", mkInc 4999000 "water" "B", mkInc 4999000 "garbage" "C",
   mkInc 4999000 "garbage" "D", mkInc 4999000 "traffic" "E"]

/-- Counterexample incident set for C9: 3 recent incidents of one type. -/
def incsThreeWater : List Incident :=
  [mkInc 999000 "water" "A", mkInc 999000 "water" "B", mkInc 999000 "water" "C"]

/-! ## Helper lemmas: rounding -/

theorem round2_mono {a b : ℚ} (h : a ≤ b) : round2 a ≤ round2 b := by
  unfold round2
  have hf : ((⌊a * 100 + 1/2⌋ : ℤ) : ℚ) ≤ ((⌊b * 100 + 1/2⌋ : ℤ) : ℚ) := by
    exact_mod_cast Int.floor_le_floor (by linarith)
  linarith

theorem round2_eq_self {q : ℚ} (k : ℤ) (h : q * 100 = (k : ℚ)) : round2 q = q := by
  unfold round2
  have hf : ⌊q * 100 + 1/2⌋ = k := by
    rw [h, Int.floor_eq_iff]
    constructor
    · linarith
    · linarith
  rw [hf, div_eq_iff (by norm_num : (100:ℚ) ≠ 0)]
  linarith

theorem round2_le_one {q : ℚ} (h : q ≤ 1) : round2 q ≤ 1 := by
  have h1 : round2 q ≤ round2 1 := round2_mono h
  have h2 : round2 (1:ℚ) = 1 := round2_eq_self 100 (by norm_num)
  linarith

theorem round2_ge (c : ℚ) (k : ℤ) (hc : c * 100 = (k : ℚ)) {q : ℚ} (h : c ≤ q) :
    c ≤ round2 q := by
  have h1 : round2 c ≤ round2 q := round2_mono h
  have h2 : round2 c = c := round2_eq_self k hc
  linarith

theorem round2_le (c : ℚ) (k : ℤ) (hc : c * 100 = (k : ℚ)) {q : ℚ} (h : q ≤ c) :
    round2 q ≤ c := by
  have h1 : round2 q ≤ round2 c := round2_mono h
  have h2 : round2 c = c := round2_eq_self k hc
  linarith

theorem inBucket_critical (x : ℚ) : inBucket "critical" x ↔ 0.8 ≤ x := by
  simp [inBucket]

theorem inBucket_high (x : ℚ) : inBucket "high" x ↔ 0.6 ≤ x ∧ x < 0.8 := by
  simp [inBucket]

theorem inBucket_moderate (x : ℚ) : inBucket "moderate" x ↔ 0.35 ≤ x ∧ x < 0.6 := by
  simp [inBucket]

theorem inBucket_low (x : ℚ) : inBucket "low" x ↔ x < 0.35 := by
  simp [inBucket]

theorem round2_nonneg {q : ℚ} (h : 0 ≤ q) : 0 ≤ round2 q :=
  round2_ge 0 0 (by norm_num) h

/-! ## Helper lemmas: sentiment analyzer -/

theorem calculate_severity_le_one (t : List Char) (u : ℚ) : calculate_severity t u ≤ 1 := by
  simp only [calculate_severity]
  exact min_le_left _ _

theorem calculate_urgency_cases (t : List Char) :
    ((calculate_urgency t).1 = "critical" ∧ 0.8 ≤ (calculate_urgency t).2 ∧
      (calculate_urgency t).2 ≤ 1) ∨
    ((calculate_urgency t).1 = "high" ∧ 0.6 ≤ (calculate_urgency t).2 ∧
      (calculate_urgency t).2 ≤ 0.79) ∨
    ((calculate_urgency t).1 = "moderate" ∧ 0.35 ≤ (calculate_urgency t).2 ∧
      (calculate_urgency t).2 ≤ 0.59) ∨
    ((calculate_urgency t).1 = "low" ∧ (calculate_urgency t).2 = 0.15) := by
  have hc : (0:ℚ) ≤ (countHits CRITICAL_KEYWORDS t : ℚ) := Nat.cast_nonneg _
  have hh : (0:ℚ) ≤ (countHits HIGH_KEYWORDS t : ℚ) := Nat.cast_nonneg _
  have hm : (0:ℚ) ≤ (countHits MODERATE_KEYWORDS t : ℚ) := Nat.cast_nonneg _
  simp only [calculate_urgency]
  split_ifs with h1 h2 h3 h4 h5 h6
  · exact Or.inl ⟨rfl, le_min (by norm_num) (by linarith), min_le_left _ _⟩
  · exact Or.inl ⟨rfl, by norm_num, by norm_num⟩
  · exact Or.inr (Or.inl ⟨rfl, le_min (by norm_num) (by linarith), min_le_left _ _⟩)
  · exact Or.inr (Or.inl ⟨rfl, by norm_num, by norm_num⟩)
  · exact Or.inr (Or.inr (Or.inl ⟨rfl, le_min (by norm_num) (by linarith), min_le_left _ _⟩))
  · exact Or.inr (Or.inr (Or.inl ⟨rfl, by norm_num, by norm_num⟩))
  · exact Or.inr (Or.inr (Or.inr ⟨rfl, rfl⟩))

theorem score_bucket_core (lbl : String) (s : ℚ) (amp : Bool)
    (hcases : (lbl = "critical" ∧ 0.8 ≤ s ∧ s ≤ 1) ∨ (lbl = "high" ∧ 0.6 ≤ s ∧ s ≤ 0.79) ∨
      (lbl = "moderate" ∧ 0.35 ≤ s ∧ s ≤ 0.59) ∨ (lbl = "low" ∧ s = 0.15)) :
    round2 (if amp then min 1 (s * 1.2) else s) ≤ 1 ∧
    (amp = false → inBucket lbl (round2 (if amp then min 1 (s * 1.2) else s))) ∧
    (lbl = "critical" → 0.8 ≤ round2 (if amp then min 1 (s * 1.2) else s)) ∧
    (lbl = "high" → 0.6 ≤ round2 (if amp then min 1 (s * 1.2) else s)) ∧
    (lbl = "moderate" → 0.35 ≤ round2 (if amp then min 1 (s * 1.2) else s)) ∧
    (lbl = "low" → round2 (if amp then min 1 (s * 1.2) else s) < 0.35) := by
  rcases hcases with ⟨hl, hlo, hhi⟩ | ⟨hl, hlo, hhi⟩ | ⟨hl, hlo, hhi⟩ | ⟨hl, hs⟩ <;> subst hl
  · have hub : (if amp then min 1 (s * 1.2) else s) ≤ 1 := by
      split_ifs
      · exact min_le_left _ _
      · linarith
    have hlb : 0.8 ≤ (if amp then min 1 (s * 1.2) else s) := by
      split_ifs
      · exact le_min (by norm_num) (by linarith)
      · exact hlo
    refine ⟨round2_le_one hub, ?_, fun _ => round2_ge 0.8 80 (by norm_num) hlb, ?_, ?_, ?_⟩
    · intro _
      rw [inBucket_critical]
      exact round2_ge 0.8 80 (by norm_num) hlb
    · intro h; exact absurd h (by decide)
    · intro h; exact absurd h (by decide)
    · intro h; exact absurd h (by decide)
  · have hub : (if amp then min 1 (s * 1.2) else s) ≤ 1 := by
      split_ifs
      · exact min_le_left _ _
      · linarith
    have hlb : 0.6 ≤ (if amp then min 1 (s * 1.2) else s) := by
      split_ifs
      · exact le_min (by norm_num) (by linarith)
      · exact hlo
    refine ⟨round2_le_one hub, ?_, ?_, fun _ => round2_ge 0.6 60 (by norm_num) hlb, ?_, ?_⟩
    · intro h
      simp only [h, Bool.false_eq_true, if_false]
      rw [inBucket_high]
      exact ⟨round2_ge 0.6 60 (by norm_num) hlo,
        lt_of_le_of_lt (round2_le 0.79 79 (by norm_num) hhi) (by norm_num)⟩
    · intro h; exact absurd h (by decide)
    · intro h; exact absurd h (by decide)
    · intro h; exact absurd h (by decide)
  · have hub : (if amp then min 1 (s * 1.2) else s) ≤ 1 := by
      split_ifs
      · exact min_le_left _ _
      · linarith
    have hlb : 0.35 ≤ (if amp then min 1 (s * 1.2) else s) := by
      split_ifs
      · exact le_min (by norm_num) (by linarith)
      · exact hlo
    refine ⟨round2_le_one hub, ?_, ?_, ?_, fun _ => round2_ge 0.35 35 (by norm_num) hlb, ?_⟩
    · intro h
      simp only [h, Bool.false_eq_true, if_false]
      rw [inBucket_moderate]
      exact ⟨round2_ge 0.35 35 (by norm_num) hlo,
        lt_of_le_of_lt (round2_le 0.59 59 (by norm_num) hhi) (by norm_num)⟩
    · intro h; exact absurd h (by decide)
    · intro h; exact absurd h (by decide)
    · intro h; exact absurd h (by decide)
  · subst hs
    have hle : (if amp then min 1 ((0.15:ℚ) * 1.2) else (0.15:ℚ)) ≤ 0.18 := by
      split_ifs
      · exact le_trans (min_le_right _ _) (by norm_num)
      · norm_num
    have hlt : round2 (if amp then min 1 ((0.15:ℚ) * 1.2) else (0.15:ℚ)) < 0.35 :=
      lt_of_le_of_lt (round2_le 0.18 18 (by norm_num) hle) (by norm_num)
    refine ⟨?_, ?_, ?_, ?_, ?_, fun _ => hlt⟩
    · exact round2_le_one (le_trans hle (by norm_num))
    · intro _
      rw [inBucket_low]
      exact hlt
    · intro h; exact absurd h (by decide)
    · intro h; exact absurd h (by decide)
    · intro h; exact absurd h (by decide)

/-! ## Claim C1 -/

/-- Claim C1 (amended): for every input text, severity_score and urgency_score
returned by analyze_sentiment never exceed 1.0 (amplification is clamped);
when the amplified flag is NOT set, urgency_score lies in the numeric bucket
of its urgency label (critical ≥0.8, high [0.6,0.8), moderate [0.35,0.6),
low <0.35); when amplified, the score never falls below its label's lower
bound (and a "low" score stays below 0.35), but a moderate or high label may
exceed its bucket's upper bound. -/
theorem claim_C1_amended (text : String) :
    (analyze_sentiment text).urgency_score ≤ 1 ∧
    (analyze_sentiment text).severity_score ≤ 1 ∧
    ((analyze_sentiment text).amplified = false →
      inBucket (analyze_sentiment text).urgency (analyze_sentiment text).urgency_score) ∧
    ((analyze_sentiment text).urgency = "critical" →
      0.8 ≤ (analyze_sentiment text).urgency_score) ∧
    ((analyze_sentiment text).urgency = "high" →
      0.6 ≤ (analyze_sentiment text).urgency_score) ∧
    ((analyze_sentiment text).urgency = "moderate" →
      0.35 ≤ (analyze_sentiment text).urgency_score) ∧
    ((analyze_sentiment text).urgency = "low" →
      (analyze_sentiment text).urgency_score < 0.35) := by
  by_cases hempty : stripList text.data = []
  · simp only [analyze_sentiment, if_pos hempty]
    with_unfolding_all decide
  · simp only [analyze_sentiment, if_neg hempty]
    have core := score_bucket_core
      (calculate_urgency (stripList (toLowerList text.data))).1
      (calculate_urgency (stripList (toLowerList text.data))).2
      (SEVERITY_AMPLIFIERS.any
        (fun a => containsSub a.data (stripList (toLowerList text.data))))
      (calculate_urgency_cases (stripList (toLowerList text.data)))
    have hsev : round2 (if (SEVERITY_AMPLIFIERS.any
        (fun a => containsSub a.data (stripList (toLowerList text.data)))) then
          min 1 (calculate_severity (stripList (toLowerList text.data))
            (calculate_urgency (stripList (toLowerList text.data))).2 * 1.3)
        else calculate_severity (stripList (toLowerList text.data))
          (calculate_urgency (stripList (toLowerList text.data))).2) ≤ 1 := by
      apply round2_le_one
      split_ifs
      · exact min_le_left _ _
      · exact calculate_severity_le_one _ _
    exact ⟨core.1, hsev, core.2.1, core.2.2.1, core.2.2.2.1, core.2.2.2.2.1,
      core.2.2.2.2.2⟩

/-- Witness for C1 (amended): on the unamplified text "pipe leak" the
profile's urgency score lies in its label's bucket. -/
theorem claim_C1_witness :
    inBucket (analyze_sentiment "pipe leak").urgency
      (analyze_sentiment "pipe leak").urgency_score :=
  (claim_C1_amended "pipe leak").2.2.1 (by with_unfolding_all decide)

/-- Counterexample to C1 as stated: the text "very dirty smell garbage
pothole" has four moderate keyword hits (score 0.52) and the amplifier
"very", so analyze_sentiment returns label "moderate" with amplified score
0.62 ≥ 0.6 — outside the moderate bucket. -/
theorem claim_C1_counterexample :
    (analyze_sentiment "very dirty smell garbage pothole").amplified = true ∧
    (analyze_sentiment "very dirty smell garbage pothole").urgency = "moderate" ∧
    (analyze_sentiment "very dirty smell garbage pothole").urgency_score = 0.62 ∧
    ¬ inBucket (analyze_sentiment "very dirty smell garbage pothole").urgency
        (analyze_sentiment "very dirty smell garbage pothole").urgency_score := by
  with_unfolding_all decide

/-! ## Claim C2 -/

/-- Claim C2 (amended): on "Water pipeline burst near Genda circle,
urgent!!!" the rule-based classifier returns category "water", and
analyze_sentiment reports urgency "critical" (∈ {high, critical}) with
has_location = true; however the amplified flag is FALSE (no word of
SEVERITY_AMPLIFIERS occurs; "!!!" feeds the severity intensity term, not the
amplified flag). -/
theorem claim_C2_amended :
    (classify_issue "Water pipeline burst near Genda circle, urgent!!!").1 = "water" ∧
    (analyze_sentiment "Water pipeline burst near Genda circle, urgent!!!").urgency
      = "critical" ∧
    (analyze_sentiment "Water pipeline burst near Genda circle, urgent!!!").has_location
      = true ∧
    (analyze_sentiment "Water pipeline burst near Genda circle, urgent!!!").amplified
      = false := by
  with_unfolding_all decide

/-- Counterexample to C2 as stated: the amplified flag on the scenario text
is false, not true. -/
theorem claim_C2_counterexample :
    ¬ ((analyze_sentiment "Water pipeline burst near Genda circle, urgent!!!").amplified
      = true) := by
  with_unfolding_all decide

/-! ## Claim C7 -/

/-- Claim C7 (code bug evaluation): on the all-uppercase text "FLOODING" the
code returns severity_score 0.37 — the uppercase-ratio term contributes 0
because analyze_sentiment passes the LOWERCASED text to _calculate_severity —
whereas the claimed formula (uppercase ratio of the submitted text,
severity_spec) yields 0.52. -/
theorem claim_C7_code_evaluation :
    (analyze_sentiment "FLOODING").severity_score = 0.37 ∧
    round2 (severity_spec "FLOODING") = 0.52 ∧
    (0.37 : ℚ) ≠ 0.52 := by
  with_unfolding_all decide

/-! ## Helper lemmas: classifier -/

theorem pickBest_snd (l : List (String × ℕ)) (acc : String × ℕ) :
    (pickBest acc l).2 = l.foldl (fun m q => max m q.2) acc.2 := by
  induction l generalizing acc with
  | nil => rfl
  | cons q rest ih =>
      simp only [pickBest, List.foldl_cons]
      rw [ih]
      congr 1
      split_ifs with h
      · exact (max_eq_right (le_of_lt h)).symm
      · exact (max_eq_left (not_lt.mp h)).symm

theorem pickBest_eq_maxfold (p : String × ℕ) (rest : List (String × ℕ)) :
    (pickBest p rest).2 = ((p :: rest).map Prod.snd).foldl max 0 := by
  rw [pickBest_snd]
  simp [List.foldl_map, Nat.zero_max]

/-! ## Claim C3 -/

/-- Claim C3 (confirmed): on the rule-based path, confidence lies in
[0, 0.95]; it is 0 with category "other" iff no keyword matched; with at
least one hit the confidence equals min(0.95, 0.5 + 0.1·hits) where hits is
the winning category's keyword-hit count (maxHits), so one hit gives 0.6 and
five or more hits saturate at 0.95. -/
theorem claim_C3 (text : String) :
    0 ≤ (classify_issue text).2 ∧ (classify_issue text).2 ≤ 0.95 ∧
    (((classify_issue text).2 = 0 ∧ (classify_issue text).1 = "other") ↔
      maxHits text = 0) ∧
    (1 ≤ maxHits text →
      (classify_issue text).2 = min 0.95 (0.5 + 0.1 * (maxHits text : ℚ))) ∧
    (maxHits text = 1 → (classify_issue text).2 = 0.6) ∧
    (5 ≤ maxHits text → (classify_issue text).2 = 0.95) := by
  obtain ⟨p, rest, hpr⟩ : ∃ p rest, rule_hit_counts text = p :: rest := ⟨_, _, rfl⟩
  have hc : classify_issue text =
      (if (pickBest p rest).2 = 0 then ("other", 0)
       else ((pickBest p rest).1, min (0.5 + ((pickBest p rest).2 : ℚ) * 0.1) 0.95)) := by
    unfold classify_issue
    rw [hpr]
  have hmh : maxHits text = (pickBest p rest).2 := by
    unfold maxHits
    rw [hpr, pickBest_eq_maxfold]
  rw [hc, hmh]
  by_cases h0 : (pickBest p rest).2 = 0
  · rw [if_pos h0, h0]
    refine ⟨by norm_num, by norm_num, by simp, ?_, ?_, ?_⟩
    · intro hcontra; omega
    · intro hcontra
      exfalso
      omega
    · intro hcontra; omega
  · rw [if_neg h0]
    have h1 : 1 ≤ (pickBest p rest).2 := Nat.one_le_iff_ne_zero.mpr h0
    have h1q : (1:ℚ) ≤ ((pickBest p rest).2 : ℚ) := by exact_mod_cast h1
    have hposc : (0:ℚ) < 0.5 + ((pickBest p rest).2 : ℚ) * 0.1 := by linarith
    refine ⟨le_min (by linarith) (by norm_num), min_le_right _ _, ?_, ?_, ?_, ?_⟩
    · constructor
      · intro hcontra
        exfalso
        have := hcontra.1
        have hpos : 0 < min (0.5 + ((pickBest p rest).2 : ℚ) * 0.1) 0.95 :=
          lt_min hposc (by norm_num)
        simp only at this
        linarith [hpos, this.ge.trans_eq this]
      · intro hcontra; omega
    · intro _
      simp only
      rw [min_comm]
      ring_nf
    · intro hone
      simp only
      rw [hone]
      norm_num
    · intro hfive
      have h5q : (5:ℚ) ≤ ((pickBest p rest).2 : ℚ) := by exact_mod_cast hfive
      simp only
      rw [min_eq_right (by linarith)]

/-- Witness for C3: the text "traffic jam" has two traffic keyword hits and
confidence min(0.95, 0.5 + 0.1·2) = 0.7. -/
theorem claim_C3_witness :
    1 ≤ maxHits "traffic jam" ∧
    (classify_issue "traffic jam").2
      = min 0.95 (0.5 + 0.1 * (maxHits "traffic jam" : ℚ)) :=
  ⟨by with_unfolding_all decide,
   (claim_C3 "traffic jam").2.2.2.1 (by with_unfolding_all decide)⟩

/-! ## Helper lemmas: fusion engine -/

theorem boostOf_mono {m n : ℕ} (h : m ≤ n) : boostOf m ≤ boostOf n := by
  unfold boostOf
  split_ifs <;> try norm_num
  all_goals omega

theorem boostOf_nonneg (n : ℕ) : 0 ≤ boostOf n := by
  unfold boostOf
  split_ifs <;> norm_num

theorem indicator_mono {v v' : ℚ} (h : v ≤ v') :
    (if v > 0.6 then (1:ℕ) else 0) ≤ (if v' > 0.6 then 1 else 0) := by
  split_ifs <;> first | omega | linarith

theorem nnSig_get0 {o : Option ℚ} (h : nnSig o) : 0 ≤ get0 o := by
  cases o
  · simp [get0]
  · simpa [get0, nnSig] using h

theorem weighted_sum_mono (i : SignalInputs) (hour : ℕ) (n : SignalName) {v v' : ℚ}
    (h : v ≤ v') :
    weighted_sum (setSignal i n v) hour ≤ weighted_sum (setSignal i n v') hour := by
  cases n <;> rcases hw : i.weather_score with _ | w <;>
    simp only [weighted_sum, setSignal, imputed_weather, imputed_temporal, get0,
      Option.getD_some, hw] <;>
    linarith

theorem boost_mono (i : SignalInputs) (n : SignalName) {v v' : ℚ} (h : v ≤ v') :
    calculate_correlation_boost (setSignal i n v) ≤
      calculate_correlation_boost (setSignal i n v') := by
  have hi := indicator_mono h
  cases n <;>
    simp only [calculate_correlation_boost, setSignal, highCount, get0,
      Option.getD_some] <;>
    first
      | exact le_rfl
      | (apply boostOf_mono; linarith)

/-! ## Claim C5 -/

/-- Claim C5 (confirmed): fusion is monotonic — for any signal map with
supplied signals in [0,1], raising any single named signal (others and the
evaluation hour fixed) never decreases the reported final_risk, through the
weighted sum, the weather imputation, the correlation-boost thresholds, the
clamp and the rounding. -/
theorem claim_C5 (i : SignalInputs) (hour : ℕ) (n : SignalName) (v v' : ℚ)
    (hrange : inRange i) (hv0 : 0 ≤ v) (hvv : v ≤ v') (hv1 : v' ≤ 1) :
    (calculate_risk (setSignal i n v) hour).final_risk ≤
      (calculate_risk (setSignal i n v') hour).final_risk := by
  simp only [calculate_risk]
  apply round2_mono
  exact min_le_min (le_refl 1)
    (add_le_add (weighted_sum_mono i hour n hvv) (boost_mono i n hvv))

/-- Witness for C5 at a concrete signal map: raising nlp from 0.2 to 0.7. -/
theorem claim_C5_witness :
    (calculate_risk
      (setSignal ⟨some 0.5, none, none, none, none, none, none⟩ .nlp 0.2) 12).final_risk ≤
    (calculate_risk
      (setSignal ⟨some 0.5, none, none, none, none, none, none⟩ .nlp 0.7) 12).final_risk :=
  claim_C5 ⟨some 0.5, none, none, none, none, none, none⟩ 12 .nlp 0.2 0.7
    (by with_unfolding_all decide) (by norm_num) (by norm_num) (by norm_num)

/-! ## Claim C6 -/

/-- Claim C6 (amended): calculate_risk accepts any signal map (it is a total
function — nothing is rejected) and the reported final_risk never exceeds 1;
when all supplied signals are nonnegative, final_risk lies in [0,1].  The
code clamps the boosted total only from above (min(1.0, ·)), so negative
supplied signals can drive final_risk below 0 (see the counterexample). -/
theorem claim_C6_amended (i : SignalInputs) (hour : ℕ) :
    (calculate_risk i hour).final_risk ≤ 1 ∧
    (nonnegInputs i → 0 ≤ (calculate_risk i hour).final_risk) := by
  constructor
  · simp only [calculate_risk]
    exact round2_le_one (min_le_left _ _)
  · intro hnn
    obtain ⟨h1, h2, h3, h4, h5, h6, h7⟩ := hnn
    have g1 := nnSig_get0 h1
    have g2 := nnSig_get0 h2
    have g3 := nnSig_get0 h3
    have g4 := nnSig_get0 h4
    have g5 := nnSig_get0 h5
    have hw : 0 ≤ imputed_weather i := by
      rcases hws : i.weather_score with _ | x
      · simp only [imputed_weather, hws]
        linarith
      · simp only [imputed_weather, hws]
        rw [hws] at h6
        simpa [nnSig] using h6
    have ht : 0 ≤ imputed_temporal i hour := by
      rcases hts : i.temporal_score with _ | x
      · simp only [imputed_temporal, hts]
        unfold get_temporal_factor
        split_ifs <;> norm_num
      · simp only [imputed_temporal, hts]
        rw [hts] at h7
        simpa [nnSig] using h7
    have hb : 0 ≤ calculate_correlation_boost i := by
      simp only [calculate_correlation_boost]
      exact boostOf_nonneg _
    simp only [calculate_risk]
    apply round2_nonneg
    apply le_min (by norm_num)
    simp only [weighted_sum]
    linarith

/-- Witness for C6 (amended): a nonnegative signal map yields a final risk
in [0,1]. -/
theorem claim_C6_witness :
    (calculate_risk ⟨some 0.5, some 0.2, none, none, none, none, some 0.1⟩ 12).final_risk
      ≤ 1 ∧
    0 ≤ (calculate_risk ⟨some 0.5, some 0.2, none, none, none, none, some 0.1⟩ 12).final_risk :=
  ⟨(claim_C6_amended ⟨some 0.5, some 0.2, none, none, none, none, some 0.1⟩ 12).1,
   (claim_C6_amended ⟨some 0.5, some 0.2, none, none, none, none, some 0.1⟩ 12).2
     (by with_unfolding_all decide)⟩

/-- Counterexample to C6 as stated: a negative supplied nlp signal (weather
and temporal supplied as 0, so nothing is imputed) produces final_risk
-0.2 < 0 — out-of-range inputs are NOT clamped from below. -/
theorem claim_C6_counterexample :
    (calculate_risk ⟨none, some (-1), none, none, none, some 0, some 0⟩ 12).final_risk
      < 0 := by
  with_unfolding_all decide

/-! ## Claim C4 -/

/-- Claim C4 (confirmed): on the fixed demo signal set (ts 0.95, nlp 0.95,
anomaly 0.90, history 0.80, video 0.85, weather and temporal absent) the
returned level is CRITICAL and the reported correlation boost is exactly
0.08 (all four corroborating signals exceed 0.6), for every hour — i.e. for
every possible value of the imputed temporal factor. -/
theorem claim_C4 (hour : ℕ) :
    (simulate_gotri_scenario hour).level = "CRITICAL" ∧
    (simulate_gotri_scenario hour).correlation_boost = 0.08 := by
  have htf : get_temporal_factor hour = 0.8 ∨ get_temporal_factor hour = 0.3 ∨
      get_temporal_factor hour = 0.5 := by
    unfold get_temporal_factor
    split_ifs
    · exact Or.inl rfl
    · exact Or.inr (Or.inl rfl)
    · exact Or.inr (Or.inr rfl)
  simp only [simulate_gotri_scenario, calculate_risk, weighted_sum, imputed_weather,
    imputed_temporal, calculate_correlation_boost, get0, Option.getD_some]
  rcases htf with hh | hh | hh <;> rw [hh] <;> with_unfolding_all decide

/-- Witness for C4 at noon (hour 12). -/
theorem claim_C4_witness :
    (simulate_gotri_scenario 12).level = "CRITICAL" ∧
    (simulate_gotri_scenario 12).correlation_boost = 0.08 :=
  claim_C4 12

/-! ## Claim C10 -/

/-- Claim C10 (confirmed): level is discretized from the unrounded clamped
risk while final_risk is reported rounded to 2 decimals, so level is not a
function of the reported final_risk: with history 0.47 the unrounded risk is
0.802 ∈ (0.8, 0.805), reported as final_risk 0.8 with level CRITICAL, while
with history 0.41 the unrounded risk 0.796 is also reported as 0.8 but with
level HIGH. -/
theorem claim_C10 :
    (calculate_risk ⟨some 0.9, some 0.9, some 0.9, some 0.47, some 0.9, some 0, some 0⟩
      12).final_risk = 0.8 ∧
    (calculate_risk ⟨some 0.9, some 0.9, some 0.9, some 0.47, some 0.9, some 0, some 0⟩
      12).level = "CRITICAL" ∧
    (calculate_risk ⟨some 0.9, some 0.9, some 0.9, some 0.41, some 0.9, some 0, some 0⟩
      12).final_risk = 0.8 ∧
    (calculate_risk ⟨some 0.9, some 0.9, some 0.9, some 0.41, some 0.9, some 0, some 0⟩
      12).level = "HIGH" := by
  with_unfolding_all decide

/-! ## Claim C8 -/

theorem health_eq (a c : ℕ) (t : Trend) (p : ℕ) :
    calculate_health_score a c t p =
      max 0 (min 100 (100 - min 30 (2*(a:ℤ)) - min 25 (8*(c:ℤ)) + trendAdj t
        - min 10 (2*(p:ℤ)))) := by
  unfold calculate_health_score trendAdj
  split_ifs <;> ring_nf

/-- Claim C8 (amended): the health score always lies in [0,100] and is
monotonically non-increasing in both the active-issue count and the
critical-issue count (other factors fixed); the decrease is strict only
while the per-factor deduction cap (30 for active, 25 for critical) is not
yet saturated and the 0/100 clamps are not binding — at the caps
(e.g. active 15 → 16) the score stays constant, so strict decrease fails in
general. -/
theorem claim_C8_amended :
    (∀ (a c : ℕ) (t : Trend) (p : ℕ),
      0 ≤ calculate_health_score a c t p ∧ calculate_health_score a c t p ≤ 100) ∧
    (∀ (a a' c : ℕ) (t : Trend) (p : ℕ), a ≤ a' →
      calculate_health_score a' c t p ≤ calculate_health_score a c t p) ∧
    (∀ (a c c' : ℕ) (t : Trend) (p : ℕ), c ≤ c' →
      calculate_health_score a c' t p ≤ calculate_health_score a c t p) ∧
    (∀ (a a' c : ℕ) (t : Trend) (p : ℕ), a < a' → 2 * a' ≤ 30 →
      0 < calculate_health_score a' c t p → calculate_health_score a c t p < 100 →
      calculate_health_score a' c t p < calculate_health_score a c t p) ∧
    (∀ (a c c' : ℕ) (t : Trend) (p : ℕ), c < c' → 8 * c < 25 →
      0 < calculate_health_score a c' t p → calculate_health_score a c t p < 100 →
      calculate_health_score a c' t p < calculate_health_score a c t p) := by
  refine ⟨?_, ?_, ?_, ?_, ?_⟩
  · intro a c t p
    rw [health_eq]
    constructor
    · omega
    · omega
  · intro a a' c t p hle
    rw [health_eq, health_eq]
    omega
  · intro a c c' t p hle
    rw [health_eq, health_eq]
    omega
  · intro a a' c t p hlt hcap hpos hlt100
    rw [health_eq] at hpos hlt100 ⊢
    rw [health_eq]
    omega
  · intro a c c' t p hlt hcap hpos hlt100
    rw [health_eq] at hpos hlt100 ⊢
    rw [health_eq]
    omega

/-- Witness for C8 (amended): going from 1 to 2 active issues (trend stable,
nothing else) strictly lowers the health score (98 to 96). -/
theorem claim_C8_witness :
    calculate_health_score 2 0 ⟨"stable", 0⟩ 0
      < calculate_health_score 1 0 ⟨"stable", 0⟩ 0 :=
  claim_C8_amended.2.2.2.1 1 2 0 ⟨"stable", 0⟩ 0 (by norm_num) (by norm_num)
    (by with_unfolding_all decide) (by with_unfolding_all decide)

/-- Counterexample to C8 as stated: at 15 vs 16 active issues (trend stable,
no critical issues, no predictions) the health score is 70 in both cases —
the active-issue deduction saturates at 30, so "strictly decreasing" fails. -/
theorem claim_C8_counterexample :
    calculate_health_score 16 0 ⟨"stable", 0⟩ 0
      = calculate_health_score 15 0 ⟨"stable", 0⟩ 0 := by
  with_unfolding_all decide

/-! ## Helper lemmas: anomaly detection -/

theorem mem_dedupKeepFirst (x : String) (l : List String) :
    x ∈ dedupKeepFirst l ↔ x ∈ l := by
  induction l using dedupKeepFirst.induct with
  | case1 => simp [dedupKeepFirst]
  | case2 y ys ih =>
      rw [dedupKeepFirst]
      by_cases hxy : x = y
      · subst hxy
        simp
      · simp [List.mem_cons, hxy, ih, List.mem_filter, bne_iff_ne]

/-! ## Claim C9 -/

/-- Claim C9 (amended): (a) whenever the recent-issue set has exactly 10
members of which 7 share one event type, detect_anomalies reports a
"type_spike" for that type (70% > 60%, count ≥ 3); (b) a recent set of AT
LEAST FIVE issues in which no single type or area accounts for more than 3
issues and whose rate-per-hour is at most 2 produces no anomalies.  (The
original claim omitted the ≥5 lower bound; with fewer than 5 issues, 3 of a
kind already exceed the 60% share and fire a type spike.) -/
theorem claim_C9_amended :
    (∀ (incidents : List Incident) (hours : ℕ) (now : ℚ) (τ : String),
      (recentOf incidents hours now).length = 10 →
      (recentOf incidents hours now).countP (fun i => i.eventType == τ) = 7 →
      ∃ a ∈ detect_anomalies incidents hours now,
        a.kind = "type_spike" ∧ a.affected = τ) ∧
    (∀ (incidents : List Incident) (hours : ℕ) (now : ℚ),
      5 ≤ (recentOf incidents hours now).length →
      (∀ τ ∈ (recentOf incidents hours now).map (·.eventType),
        (recentOf incidents hours now).countP (fun i => i.eventType == τ) ≤ 3) →
      (∀ α ∈ (recentOf incidents hours now).map (·.areaName),
        (recentOf incidents hours now).countP (fun i => i.areaName == α) ≤ 3) →
      ((recentOf incidents hours now).length : ℚ) / ((max hours 1 : ℕ) : ℚ) ≤ 2 →
      detect_anomalies incidents hours now = []) := by
  constructor
  · intro incidents hours now τ hlen hcount
    have hmem : τ ∈ (recentOf incidents hours now).map (·.eventType) := by
      have hpos : 0 < (recentOf incidents hours now).countP
          (fun i => i.eventType == τ) := by omega
      rw [List.countP_pos] at hpos
      obtain ⟨i, hi, hieq⟩ := hpos
      rw [List.mem_map]
      exact ⟨i, hi, by simpa using hieq⟩
    refine ⟨⟨"type_spike", "warning", τ⟩, ?_, rfl, rfl⟩
    simp only [detect_anomalies]
    simp only [List.mem_append]
    refine Or.inl (Or.inl ?_)
    rw [List.mem_filterMap]
    refine ⟨τ, ?_, ?_⟩
    · rw [mem_dedupKeepFirst]
      exact hmem
    · rw [hcount, hlen]
      rw [if_pos (by norm_num)]
  · intro incidents hours now hlen htype harea hrate
    simp only [detect_anomalies, List.append_eq_nil]
    have hq5 : (5:ℚ) ≤ ((recentOf incidents hours now).length : ℚ) := by
      exact_mod_cast hlen
    refine ⟨⟨?_, ?_⟩, ?_⟩
    · rw [List.filterMap_eq_nil]
      intro τ hτ
      rw [mem_dedupKeepFirst] at hτ
      have hc := htype τ hτ
      rw [if_neg]
      rintro ⟨h1, h2, h3⟩
      have hcq : ((recentOf incidents hours now).countP
          (fun i => i.eventType == τ) : ℚ) ≤ 3 := by exact_mod_cast hc
      have hpos : (0:ℚ) < ((recentOf incidents hours now).length : ℚ) := by
        exact_mod_cast h1
      have hmul := (lt_div_iff hpos).mp h2
      nlinarith
    · rw [List.filterMap_eq_nil]
      intro α hα
      rw [mem_dedupKeepFirst] at hα
      have hc := harea α hα
      rw [if_neg]
      rintro ⟨h4, _⟩
      omega
    · rw [if_neg]
      rintro ⟨_, h2⟩
      exact absurd h2 (not_lt.mpr hrate)

/-- Witness for C9 (amended): on a concrete set of 10 recent incidents with
7 of type "water" a type_spike for "water" is reported, and on a concrete
quiet 5-incident set no anomaly is reported. -/
theorem claim_C9_witness :
    (∃ a ∈ detect_anomalies incsTypeSpike 24 5000000,
      a.kind = "type_spike" ∧ a.affected = "water") ∧
    detect_anomalies incsQuiet 24 5000000 = [] :=
  ⟨claim_C9_amended.1 incsTypeSpike 24 5000000 "water" (by with_unfolding_all decide)
      (by with_unfolding_all decide),
   claim_C9_amended.2 incsQuiet 24 5000000 (by with_unfolding_all decide)
      (by with_unfolding_all decide) (by with_unfolding_all decide)
      (by with_unfolding_all decide)⟩

/-- Counterexample to C9 as stated: three recent incidents, all of type
"water" in distinct areas, satisfy every premise of part (b) of the claim
(no type or area above 3, rate 3/24 ≤ 2), yet the anomaly list is NOT empty:
3 of 3 incidents is a 100% > 60% share with count ≥ 3, so a type_spike
fires. -/
theorem claim_C9_counterexample :
    (recentOf incsThreeWater 24 1000000).length = 3 ∧
    (∀ τ ∈ (recentOf incsThreeWater 24 1000000).map (·.eventType),
      (recentOf incsThreeWater 24 1000000).countP (fun i => i.eventType == τ) ≤ 3) ∧
    (∀ α ∈ (recentOf incsThreeWater 24 1000000).map (·.areaName),
      (recentOf incsThreeWater 24 1000000).countP (fun i => i.areaName == α) ≤ 3) ∧
    ((recentOf incsThreeWater 24 1000000).length : ℚ) / ((max 24 1 : ℕ) : ℚ) ≤ 2 ∧
    detect_anomalies incsThreeWater 24 1000000 = [⟨"type_spike", "warning", "water"⟩] := by
  with_unfolding_all decide
